import Mathlib

/-!
Verification of the GCP/GKE tool client in
`src/mcp-servers/hello-mcp/src/gcp-tools.ts`.

The TypeScript module is shallowly embedded: JSON values are modelled by a
mutual inductive type, HTTP traffic by an explicit oracle
`net : HttpRequest → HttpResponse` together with the list of requests each
operation issues (in order), the RS256 signer by an abstract function
`sign : String → String → List Nat` returning the raw signature bytes, and
the clock by an explicit `now : Nat` (epoch seconds).  Machine strings are
byte lists (`List Nat`, each entry < 256) where byte-level behaviour
matters (base64).
-/

set_option maxRecDepth 8000

mutual

/-- JavaScript/JSON values, as produced by `JSON.parse` and consumed by the
tool client.  `null` also stands for JavaScript `undefined` where a JSON
value (rather than `Option Json`) is required. -/
inductive Json where
  | null : Json
  | bool : Bool → Json
  | num : Nat → Json
  | str : String → Json
  | arr : JsonList → Json
  | obj : JsonObj → Json
deriving DecidableEq

inductive JsonList where
  | nil : JsonList
  | cons : Json → JsonList → JsonList
deriving DecidableEq

inductive JsonObj where
  | nil : JsonObj
  | cons : String → Json → JsonObj → JsonObj
deriving DecidableEq

end

/-- The elements of a JSON array, as a Lean list. -/
def JsonList.toList : JsonList → List Json
  | .nil => []
  | .cons x tl => x :: JsonList.toList tl

/-- Field lookup in a JSON object (first occurrence wins). -/
def JsonObj.lookupField : JsonObj → String → Option Json
  | .nil, _ => none
  | .cons k v tl, key => if k = key then some v else JsonObj.lookupField tl key

/-- JavaScript property access `value.key`: `undefined` (`none`) unless the
value is an object carrying the field. -/
def jsGet (j : Json) (key : String) : Option Json :=
  match j with
  | .obj fields => fields.lookupField key
  | _ => none

/-- Optional-chaining property access `value?.key`. -/
def jsGetO (o : Option Json) (key : String) : Option Json :=
  o.bind (fun j => jsGet j key)

/-- JavaScript truthiness of a value. -/
def jsTruthy : Json → Bool
  | .null => false
  | .bool b => b
  | .num n => n != 0
  | .str s => !s.isEmpty
  | .arr _ => true
  | .obj _ => true

/-- JavaScript truthiness, where `none` is `undefined`. -/
def jsTruthyO : Option Json → Bool
  | none => false
  | some j => jsTruthy j

/-- JavaScript `a || b` where `a` may be `undefined`. -/
def jsOr (a : Option Json) (b : Json) : Json :=
  match a with
  | some v => if jsTruthy v then v else b
  | none => b

/-- JavaScript `a || b` with both operands possibly `undefined`. -/
def jsOrO (a b : Option Json) : Option Json :=
  if jsTruthyO a then a else b

/-- String escaping used by `JSON.stringify` (the escapes relevant to this
client). -/
def escapeChar (c : Char) : String :=
  if c = '"' then "\\\""
  else if c = '\\' then "\\\\"
  else if c = '\n' then "\\n"
  else if c = '\r' then "\\r"
  else if c = '\t' then "\\t"
  else String.singleton c

/-- `JSON.stringify` escaping applied to a whole string. -/
def escapeString (s : String) : String :=
  String.join (s.data.map escapeChar)

mutual

/-- `JSON.stringify`, as used for request bodies and log payloads. -/
def jsonStringify : Json → String
  | .null => "null"
  | .bool true => "true"
  | .bool false => "false"
  | .num n => toString n
  | .str s => "\"" ++ escapeString s ++ "\""
  | .arr xs => "[" ++ stringifyElems xs ++ "]"
  | .obj xs => "\x7b" ++ stringifyFields xs ++ "\x7d"

/-- Comma-separated serialization of array elements. -/
def stringifyElems : JsonList → String
  | .nil => ""
  | .cons x .nil => jsonStringify x
  | .cons x tl => jsonStringify x ++ "," ++ stringifyElems tl

/-- Comma-separated serialization of object fields. -/
def stringifyFields : JsonObj → String
  | .nil => ""
  | .cons k v .nil => "\"" ++ escapeString k ++ "\":" ++ jsonStringify v
  | .cons k v tl =>
    "\"" ++ escapeString k ++ "\":" ++ jsonStringify v ++ "," ++ stringifyFields tl

end

mutual

/-- JavaScript template-literal conversion of a value to a string. -/
def jsDisplay : Json → String
  | .null => "null"
  | .bool true => "true"
  | .bool false => "false"
  | .num n => toString n
  | .str s => s
  | .arr xs => displayElems xs
  | .obj _ => "[object Object]"

/-- `Array.prototype.toString`: elements joined with commas. -/
def displayElems : JsonList → String
  | .nil => ""
  | .cons x .nil => jsDisplay x
  | .cons x tl => jsDisplay x ++ "," ++ displayElems tl

end

/-- Template-literal conversion where `none` is `undefined`. -/
def jsDisplayO : Option Json → String
  | none => "undefined"
  | some j => jsDisplay j

/-- The UTF-16 code units of a string, as numbers (`charCodeAt` view used by
`btoa`). -/
def strBytes (s : String) : List Nat :=
  s.data.map Char.toNat

/-- The standard base64 alphabet, as used by `btoa`. -/
def stdAlphabet : List Char :=
  ['A', 'B', 'C', 'D', 'E', 'F', 'G', 'H', 'I', 'J', 'K', 'L', 'M',
   'N', 'O', 'P', 'Q', 'R', 'S', 'T', 'U', 'V', 'W', 'X', 'Y', 'Z',
   'a', 'b', 'c', 'd', 'e', 'f', 'g', 'h', 'i', 'j', 'k', 'l', 'm',
   'n', 'o', 'p', 'q', 'r', 's', 't', 'u', 'v', 'w', 'x', 'y', 'z',
   '0', '1', '2', '3', '4', '5', '6', '7', '8', '9', '+', '/']

/-- The character for a 6-bit group in standard base64. -/
def stdChar (n : Nat) : Char := stdAlphabet.getD n 'A'

/-- `btoa`: standard base64 with `=` padding, over the input's byte values,
three bytes to four characters. -/
def btoaChars : List Nat → List Char
  | [] => []
  | [a] => [stdChar (a / 4), stdChar (a % 4 * 16), '=', '=']
  | [a, b] => [stdChar (a / 4), stdChar (a % 4 * 16 + b / 16), stdChar (b % 16 * 4), '=']
  | a :: b :: c :: rest =>
    stdChar (a / 4) :: stdChar (a % 4 * 16 + b / 16) ::
      stdChar (b % 16 * 4 + c / 64) :: stdChar (c % 64) :: btoaChars rest

/-- The per-character substitution performed by
`.replace(/\+/g, "-").replace(/\//g, "_")` in `base64UrlEncode`. -/
def urlSwapChar (c : Char) : Char :=
  if c = '+' then '-' else if c = '/' then '_' else c

/-- `base64UrlEncode` (gcp-tools.ts lines 108-123): standard base64 via
`btoa`, then `+`→`-`, `/`→`_`, and all `=` stripped (`.replace(/=/g, "")`). -/
def base64UrlEncode (bytes : List Nat) : String :=
  String.mk (((btoaChars bytes).map urlSwapChar).filter (fun c => c != '='))

/-- The base64url alphabet (standard alphabet after the `+`→`-`, `/`→`_`
substitution). -/
def urlAlphabet : List Char :=
  ['A', 'B', 'C', 'D', 'E', 'F', 'G', 'H', 'I', 'J', 'K', 'L', 'M',
   'N', 'O', 'P', 'Q', 'R', 'S', 'T', 'U', 'V', 'W', 'X', 'Y', 'Z',
   'a', 'b', 'c', 'd', 'e', 'f', 'g', 'h', 'i', 'j', 'k', 'l', 'm',
   'n', 'o', 'p', 'q', 'r', 's', 't', 'u', 'v', 'w', 'x', 'y', 'z',
   '0', '1', '2', '3', '4', '5', '6', '7', '8', '9', '-', '_']

/-- The character for a 6-bit group in base64url. -/
def urlChar (n : Nat) : Char := urlSwapChar (stdChar n)

/-- Reference base64url decoding of one character to its 6-bit value. -/
def urlCharVal (c : Char) : Option Nat :=
  let i := urlAlphabet.indexOf c
  if i < 64 then some i else none

/-- Reference decoder, character step: all characters to 6-bit values. -/
def decodeVals : List Char → Option (List Nat)
  | [] => some []
  | c :: tl =>
    match urlCharVal c with
    | none => none
    | some v =>
      match decodeVals tl with
      | none => none
      | some vs => some (v :: vs)

/-- Reference decoder, bit step: 6-bit groups back to bytes (strict about
the trailing bits of an unpadded tail). -/
def sextetsToBytes : List Nat → Option (List Nat)
  | [] => some []
  | [_] => none
  | [a, b] => if b % 16 = 0 then some [a * 4 + b / 16] else none
  | [a, b, c] =>
    if c % 4 = 0 then some [a * 4 + b / 16, b % 16 * 16 + c / 4] else none
  | a :: b :: c :: d :: rest =>
    match sextetsToBytes rest with
    | none => none
    | some t => some ((a * 4 + b / 16) :: (b % 16 * 16 + c / 4) :: (c % 4 * 64 + d) :: t)

/-- Reference base64url decoder: the left inverse the specification measures
`base64UrlEncode` against. -/
def base64UrlDecode (s : String) : Option (List Nat) :=
  match decodeVals s.data with
  | none => none
  | some vs => sextetsToBytes vs

/-- The 6-bit groups of a byte string (the bit-level content of its base64
encoding, without padding). -/
def sextetsOfBytes : List Nat → List Nat
  | [] => []
  | [a] => [a / 4, a % 4 * 16]
  | [a, b] => [a / 4, a % 4 * 16 + b / 16, b % 16 * 4]
  | a :: b :: c :: rest =>
    a / 4 :: (a % 4 * 16 + b / 16) :: (b % 16 * 4 + c / 64) :: c % 64 :: sextetsOfBytes rest

theorem stdChar_mem (n : Nat) : stdChar n ∈ stdAlphabet := by
  unfold stdChar
  rcases Nat.lt_or_ge n stdAlphabet.length with h | h
  · rw [List.getD_eq_getElem _ _ h]
    exact List.getElem_mem _
  · rw [List.getD_eq_default _ _ h]
    decide

theorem urlSwapChar_mem_of_mem (c : Char) (h : c ∈ stdAlphabet) :
    urlSwapChar c ∈ urlAlphabet := by
  revert c
  decide

theorem urlChar_mem (n : Nat) : urlChar n ∈ urlAlphabet :=
  urlSwapChar_mem_of_mem _ (stdChar_mem n)

theorem urlChar_ne_pad (n : Nat) : (urlChar n != '=') = true := by
  have h := urlChar_mem n
  have hne : urlChar n ≠ '=' := ne_of_mem_of_not_mem h (by decide)
  simpa using hne

theorem urlSwap_stdChar (n : Nat) : urlSwapChar (stdChar n) = urlChar n := rfl

theorem urlSwap_pad : urlSwapChar '=' = '=' := by decide

theorem urlCharVal_urlChar (n : Nat) (h : n < 64) : urlCharVal (urlChar n) = some n := by
  revert h
  revert n
  decide

theorem btoaChars_swap_filter (bytes : List Nat) :
    ((btoaChars bytes).map urlSwapChar).filter (fun c => c != '=') =
      (sextetsOfBytes bytes).map urlChar := by
  induction bytes using btoaChars.induct with
  | case1 => rfl
  | case2 a =>
    simp [btoaChars, sextetsOfBytes, urlSwap_stdChar, urlSwap_pad, urlChar_ne_pad]
  | case3 a b =>
    simp [btoaChars, sextetsOfBytes, urlSwap_stdChar, urlSwap_pad, urlChar_ne_pad]
  | case4 a b c rest ih =>
    simp [btoaChars, sextetsOfBytes, urlSwap_stdChar, urlChar_ne_pad, ih]

theorem sextetsOfBytes_lt (bytes : List Nat) (hb : ∀ b ∈ bytes, b < 256) :
    ∀ v ∈ sextetsOfBytes bytes, v < 64 := by
  induction bytes using sextetsOfBytes.induct with
  | case1 => simp [sextetsOfBytes]
  | case2 a =>
    have ha : a < 256 := hb a (by simp)
    intro v hv
    simp [sextetsOfBytes] at hv
    rcases hv with h | h <;> omega
  | case3 a b =>
    have ha : a < 256 := hb a (by simp)
    have hbb : b < 256 := hb b (by simp)
    intro v hv
    simp [sextetsOfBytes] at hv
    rcases hv with h | h | h <;> omega
  | case4 a b c rest ih =>
    have ha : a < 256 := hb a (by simp)
    have hbb : b < 256 := hb b (by simp)
    have hc : c < 256 := hb c (by simp)
    intro v hv
    simp only [sextetsOfBytes, List.mem_cons] at hv
    rcases hv with h | h | h | h | h
    · omega
    · omega
    · omega
    · omega
    · exact ih (fun x hx => hb x (by simp [hx])) v h

theorem decodeVals_map_urlChar (vs : List Nat) (h : ∀ v ∈ vs, v < 64) :
    decodeVals (vs.map urlChar) = some vs := by
  induction vs with
  | nil => rfl
  | cons v tl ih =>
    simp only [List.map_cons, decodeVals,
      urlCharVal_urlChar v (h v (by simp)),
      ih (fun x hx => h x (by simp [hx]))]

theorem sextetsToBytes_ofBytes (bytes : List Nat) (hb : ∀ b ∈ bytes, b < 256) :
    sextetsToBytes (sextetsOfBytes bytes) = some bytes := by
  induction bytes using sextetsOfBytes.induct with
  | case1 => rfl
  | case2 a =>
    have ha : a < 256 := hb a (by simp)
    show sextetsToBytes [a / 4, a % 4 * 16] = some [a]
    rw [sextetsToBytes]
    rw [if_pos (by omega)]
    simp only [Option.some.injEq, List.cons.injEq, and_true]
    omega
  | case3 a b =>
    have ha : a < 256 := hb a (by simp)
    have hbb : b < 256 := hb b (by simp)
    show sextetsToBytes [a / 4, a % 4 * 16 + b / 16, b % 16 * 4] = some [a, b]
    rw [sextetsToBytes]
    rw [if_pos (by omega)]
    simp only [Option.some.injEq, List.cons.injEq, and_true]
    constructor <;> omega
  | case4 a b c rest ih =>
    have ha : a < 256 := hb a (by simp)
    have hbb : b < 256 := hb b (by simp)
    have hc : c < 256 := hb c (by simp)
    have ihr := ih (fun x hx => hb x (by simp [hx]))
    show sextetsToBytes (a / 4 :: (a % 4 * 16 + b / 16) :: (b % 16 * 4 + c / 64) ::
      c % 64 :: sextetsOfBytes rest) = some (a :: b :: c :: rest)
    rw [sextetsToBytes, ihr]
    simp only [Option.some.injEq, List.cons.injEq, and_true]
    refine ⟨by omega, by omega, by omega⟩

theorem base64UrlEncode_data (bytes : List Nat) :
    (base64UrlEncode bytes).data = (sextetsOfBytes bytes).map urlChar :=
  btoaChars_swap_filter bytes

theorem base64UrlDecode_encode (bytes : List Nat) (hb : ∀ b ∈ bytes, b < 256) :
    base64UrlDecode (base64UrlEncode bytes) = some bytes := by
  unfold base64UrlDecode
  rw [base64UrlEncode_data,
    decodeVals_map_urlChar _ (sextetsOfBytes_lt bytes hb)]
  exact sextetsToBytes_ofBytes bytes hb

theorem base64UrlEncode_chars (bytes : List Nat) :
    ∀ c ∈ (base64UrlEncode bytes).data, c ∈ urlAlphabet := by
  rw [base64UrlEncode_data]
  intro c hc
  rcases List.mem_map.1 hc with ⟨n, _, rfl⟩
  exact urlChar_mem n

/-- The `{` character (written via its code point). -/
def lbraceChar : Char := Char.ofNat 123

/-- The `}` character (written via its code point). -/
def rbraceChar : Char := Char.ofNat 125

/-- JSON escape sequences recognized by the `JSON.parse` model. -/
def escDecode (c : Char) : Option Char :=
  if c = '"' then some '"'
  else if c = '\\' then some '\\'
  else if c = '/' then some '/'
  else if c = 'n' then some '\n'
  else if c = 't' then some '\t'
  else if c = 'r' then some '\r'
  else if c = 'b' then some (Char.ofNat 8)
  else if c = 'f' then some (Char.ofNat 12)
  else none

/-- Parse the body of a JSON string literal (opening quote already
consumed), returning the string and the remaining input. -/
def parseStringChars : List Char → Option (String × List Char)
  | [] => none
  | c :: tl =>
    if c = '"' then some ("", tl)
    else if c = '\\' then
      match tl with
      | [] => none
      | e :: tl2 =>
        match escDecode e with
        | none => none
        | some d =>
          match parseStringChars tl2 with
          | none => none
          | some r => some (String.singleton d ++ r.1, r.2)
    else
      match parseStringChars tl with
      | none => none
      | some r => some (String.singleton c ++ r.1, r.2)

/-- Split a leading run of decimal digits from the input. -/
def takeDigits : List Char → List Char × List Char
  | [] => ([], [])
  | c :: tl =>
    if c.isDigit then
      match takeDigits tl with
      | (ds, rest) => (c :: ds, rest)
    else ([], c :: tl)

/-- Decimal digits to a number. -/
def digitsToNat (ds : List Char) : Nat :=
  ds.foldl (fun acc c => acc * 10 + (c.toNat - 48)) 0

/-- Skip JSON whitespace. -/
def skipWs : List Char → List Char
  | [] => []
  | c :: tl =>
    if c = ' ' ∨ c = '\n' ∨ c = '\t' ∨ c = '\r' then skipWs tl else c :: tl

mutual

/-- Fueled recursive-descent JSON value parser (model of `JSON.parse`). -/
def parseJsonValue : Nat → List Char → Option (Json × List Char)
  | 0, _ => none
  | fuel + 1, cs =>
    match skipWs cs with
    | [] => none
    | c :: tl =>
      if c = '"' then
        match parseStringChars tl with
        | none => none
        | some r => some (.str r.1, r.2)
      else if c = lbraceChar then
        match parseJsonFieldsStart fuel tl with
        | none => none
        | some r => some (.obj r.1, r.2)
      else if c = '[' then
        match parseJsonElemsStart fuel tl with
        | none => none
        | some r => some (.arr r.1, r.2)
      else if c.isDigit then
        match takeDigits (c :: tl) with
        | (ds, rest) => some (.num (digitsToNat ds), rest)
      else if c = 't' then
        if tl.take 3 = ['r', 'u', 'e'] then some (.bool true, tl.drop 3) else none
      else if c = 'f' then
        if tl.take 4 = ['a', 'l', 's', 'e'] then some (.bool false, tl.drop 4) else none
      else if c = 'n' then
        if tl.take 3 = ['u', 'l', 'l'] then some (.null, tl.drop 3) else none
      else none

/-- Parse one `"key": value` object member. -/
def parseJsonMember : Nat → List Char → Option (String × Json × List Char)
  | 0, _ => none
  | fuel + 1, cs =>
    match skipWs cs with
    | [] => none
    | c :: tl =>
      if c = '"' then
        match parseStringChars tl with
        | none => none
        | some k =>
          match skipWs k.2 with
          | [] => none
          | c2 :: tl2 =>
            if c2 = ':' then
              match parseJsonValue fuel tl2 with
              | none => none
              | some v => some (k.1, v.1, v.2)
            else none
      else none

/-- Parse the members of an object directly after `\x7b`. -/
def parseJsonFieldsStart : Nat → List Char → Option (JsonObj × List Char)
  | 0, _ => none
  | fuel + 1, cs =>
    match skipWs cs with
    | [] => none
    | c :: tl =>
      if c = rbraceChar then some (.nil, tl)
      else
        match parseJsonMember fuel cs with
        | none => none
        | some m =>
          match parseJsonFieldsRest fuel m.2.2 with
          | none => none
          | some r => some (.cons m.1 m.2.1 r.1, r.2)

/-- Parse `, member`* `\x7d` after an object member. -/
def parseJsonFieldsRest : Nat → List Char → Option (JsonObj × List Char)
  | 0, _ => none
  | fuel + 1, cs =>
    match skipWs cs with
    | [] => none
    | c :: tl =>
      if c = rbraceChar then some (.nil, tl)
      else if c = ',' then
        match parseJsonMember fuel tl with
        | none => none
        | some m =>
          match parseJsonFieldsRest fuel m.2.2 with
          | none => none
          | some r => some (.cons m.1 m.2.1 r.1, r.2)
      else none

/-- Parse the elements of an array directly after `[`. -/
def parseJsonElemsStart : Nat → List Char → Option (JsonList × List Char)
  | 0, _ => none
  | fuel + 1, cs =>
    match skipWs cs with
    | [] => none
    | c :: tl =>
      if c = ']' then some (.nil, tl)
      else
        match parseJsonValue fuel cs with
        | none => none
        | some v =>
          match parseJsonElemsRest fuel v.2 with
          | none => none
          | some r => some (.cons v.1 r.1, r.2)

/-- Parse `, value`* `]` after an array element. -/
def parseJsonElemsRest : Nat → List Char → Option (JsonList × List Char)
  | 0, _ => none
  | fuel + 1, cs =>
    match skipWs cs with
    | [] => none
    | c :: tl =>
      if c = ']' then some (.nil, tl)
      else if c = ',' then
        match parseJsonValue fuel tl with
        | none => none
        | some v =>
          match parseJsonElemsRest fuel v.2 with
          | none => none
          | some r => some (.cons v.1 r.1, r.2)
      else none

end

/-- Model of `JSON.parse`: `none` is a thrown `SyntaxError`. -/
def jsonParse (s : String) : Option Json :=
  match parseJsonValue (s.data.length + 2) s.data with
  | none => none
  | some r => if skipWs r.2 = [] then some r.1 else none

/-- Hexadecimal digits (uppercase), for percent-encoding. -/
def hexDigits : List Char :=
  ['0', '1', '2', '3', '4', '5', '6', '7', '8', '9', 'A', 'B', 'C', 'D', 'E', 'F']

/-- `application/x-www-form-urlencoded` encoding of one character, as done
by `URLSearchParams`. -/
def percentEncodeChar (c : Char) : String :=
  if c.isAlphanum ∨ c = '*' ∨ c = '-' ∨ c = '.' ∨ c = '_' then String.singleton c
  else if c = ' ' then "+"
  else String.mk ['%', hexDigits.getD (c.toNat / 16 % 16) '0', hexDigits.getD (c.toNat % 16) '0']

/-- `URLSearchParams` encoding of a whole component. -/
def percentEncode (s : String) : String :=
  String.join (s.data.map percentEncodeChar)

/-- `new URLSearchParams(params).toString()`. -/
def formUrlEncode (params : List (String × String)) : String :=
  String.intercalate "&" (params.map (fun p => percentEncode p.1 ++ "=" ++ percentEncode p.2))

instance {ε α : Type} [DecidableEq ε] [DecidableEq α] : DecidableEq (Except ε α) := fun a b =>
  match a, b with
  | .ok x, .ok y => decidable_of_iff (x = y) (by simp)
  | .error e, .error f => decidable_of_iff (e = f) (by simp)
  | .ok _, .error _ => isFalse (by simp)
  | .error _, .ok _ => isFalse (by simp)

/-- An HTTP request as issued through `fetch`. -/
structure HttpRequest where
  method : String
  url : String
  headers : List (String × String)
  body : Option String
deriving DecidableEq

/-- An HTTP response as seen by the client: `ok` (status 2xx), the raw text
body, and the body parsed as JSON (for call sites using `response.json()`). -/
structure HttpResponse where
  ok : Bool
  text : String
  json : Json
deriving DecidableEq

/-- `GCPConfig` (gcp-tools.ts lines 7-12). -/
structure GCPConfig where
  projectId : String
  clusterName : String
  region : String
  serviceAccountKey : String
deriving DecidableEq

/-- `ServiceAccountCredentials` as actually produced by
`JSON.parse(config.serviceAccountKey) as ServiceAccountCredentials`: a bare
cast, so each field is whatever the parsed object carries (possibly
`undefined` = `none`). -/
structure ServiceAccountCredentials where
  client_email : Option Json
  private_key : Option Json
  project_id : Option Json
deriving DecidableEq

/-- `JSON.parse(raw) as ServiceAccountCredentials`: parse, then read the
three fields without validation.  `none` is a thrown `SyntaxError`. -/
def parseCredentials (raw : String) : Option ServiceAccountCredentials :=
  (jsonParse raw).map (fun j => ⟨jsGet j "client_email", jsGet j "private_key", jsGet j "project_id"⟩)

/-- The error raised when `JSON.parse(config.serviceAccountKey)` throws. -/
def jsonParseError : String := "SyntaxError: Unexpected token in JSON"

/-- The error raised when `privateKeyPem.replace(...)` is called on a
non-string `private_key`. -/
def privateKeyTypeError : String := "TypeError: privateKeyPem.replace is not a function"

/-- The hard-coded scope requested in the JWT claims (line 36). -/
def cloudPlatformScope : String := "https://www.googleapis.com/auth/cloud-platform"

/-- The OAuth2 token endpoint (lines 37 and 52). -/
def tokenEndpoint : String := "https://oauth2.googleapis.com/token"

/-- The JWT header object (lines 29-32). -/
def jwtHeaderJson : Json :=
  .obj (.cons "alg" (.str "RS256") (.cons "typ" (.str "JWT") .nil))

/-- The JWT claims object (lines 34-40): `iss`, `scope`, `aud`, `exp`,
`iat` in source order; `JSON.stringify` drops `iss` when `client_email` is
`undefined`. -/
def jwtClaims (email : Option Json) (now : Nat) : Json :=
  .obj (match email with
    | some v => .cons "iss" v (jwtClaimsTail now)
    | none => jwtClaimsTail now)
where
  /-- The claims after `iss`. -/
  jwtClaimsTail (now : Nat) : JsonObj :=
    .cons "scope" (.str cloudPlatformScope)
      (.cons "aud" (.str tokenEndpoint)
        (.cons "exp" (.num (now + 3600))
          (.cons "iat" (.num now) .nil)))

/-- The signed JWT assertion (lines 25-49): `iat = now`, `exp = now + 3600`,
compact form `base64url(header).base64url(claims).base64url(signature)`,
where the signature bytes come from the abstract RS256 signer applied to
the signature input and the PEM private key. -/
def mkAssertion (sign : String → String → List Nat) (now : Nat)
    (email : Option Json) (privateKeyPem : String) : String :=
  let encodedHeader := base64UrlEncode (strBytes (jsonStringify jwtHeaderJson))
  let encodedClaims := base64UrlEncode (strBytes (jsonStringify (jwtClaims email now)))
  let signatureInput := encodedHeader ++ "." ++ encodedClaims
  signatureInput ++ "." ++ base64UrlEncode (sign signatureInput privateKeyPem)

/-- The token-exchange request (lines 52-59): form-encoded POST of
`grant_type` and `assertion`. -/
def tokenRequest (sign : String → String → List Nat) (now : Nat)
    (email : Option Json) (privateKeyPem : String) : HttpRequest :=
  { method := "POST"
    url := tokenEndpoint
    headers := [("Content-Type", "application/x-www-form-urlencoded")]
    body := some (formUrlEncode
      [("grant_type", "urn:ietf:params:oauth:grant-type:jwt-bearer"),
       ("assertion", mkAssertion sign now email privateKeyPem)]) }

/-- `getAccessToken` (lines 24-68).  Returns the requests issued and either
the `access_token` field of the 2xx JSON body (`none` = `undefined` when
absent) or the thrown error's message. -/
def getAccessToken (net : HttpRequest → HttpResponse) (sign : String → String → List Nat)
    (now : Nat) (credentials : ServiceAccountCredentials) :
    List HttpRequest × Except String (Option Json) :=
  match credentials.private_key with
  | some (.str pk) =>
    let req := tokenRequest sign now credentials.client_email pk
    let resp := net req
    if resp.ok then ([req], .ok (jsGet resp.json "access_token"))
    else ([req], .error ("Failed to get access token: " ++ resp.text))
  | _ => ([], .error privateKeyTypeError)

/-- The cluster-description request issued by `getCluster` (lines 129-133). -/
def clusterRequest (config : GCPConfig) (accessToken : Option Json) : HttpRequest :=
  { method := "GET"
    url := "https://container.googleapis.com/v1/projects/" ++ config.projectId ++
      "/locations/" ++ config.region ++ "/clusters/" ++ config.clusterName
    headers := [("Authorization", "Bearer " ++ jsDisplayO accessToken)]
    body := none }

/-- The `{endpoint, caCertificate}` pair extracted by `getCluster`. -/
structure ClusterInfo where
  endpoint : Option Json
  caCertificate : Option Json
deriving DecidableEq

/-- `getCluster` (lines 128-145). -/
def getCluster (net : HttpRequest → HttpResponse) (config : GCPConfig)
    (accessToken : Option Json) : List HttpRequest × Except String ClusterInfo :=
  let req := clusterRequest config accessToken
  let resp := net req
  if resp.ok then
    ([req], .ok ⟨jsGet resp.json "endpoint",
                 jsGetO (jsGet resp.json "masterAuth") "clusterCaCertificate"⟩)
  else ([req], .error ("Failed to get cluster: " ++ resp.text))

/-- `config.projectId || credentials.project_id` (lines 159, 234, 291, 335),
flattened to the string it contributes to URLs/bodies. -/
def resolveProjectId (config : GCPConfig) (credentials : ServiceAccountCredentials) : String :=
  if config.projectId.isEmpty then jsDisplayO credentials.project_id else config.projectId

/-- The Cloud Logging endpoint used by `listPods`, `getPodLogs` and
`queryCloudLogs` (lines 164, 242, 336). -/
def loggingEndpoint : String := "https://logging.googleapis.com/v2/entries:list"

/-- The `entries:list` POST request shared by the three logging-backed
operations (lines 165-177, 243-255, 338-350). -/
def entriesListRequest (accessToken : Option Json) (projectId filter : String)
    (pageSize : Nat) : HttpRequest :=
  { method := "POST"
    url := loggingEndpoint
    headers := [("Authorization", "Bearer " ++ jsDisplayO accessToken),
                ("Content-Type", "application/json")]
    body := some (jsonStringify (.obj
      (.cons "resourceNames" (.arr (.cons (.str ("projects/" ++ projectId)) .nil))
        (.cons "filter" (.str filter)
          (.cons "pageSize" (.num pageSize)
            (.cons "orderBy" (.str "timestamp desc") .nil)))))) }

/-- The Cloud Logging filter built by `listPods` (line 162). -/
def listPodsFilter (namespaceName clusterName : String) : String :=
  "resource.type=\"k8s_container\" resource.labels.namespace_name=\"" ++ namespaceName ++
    "\" resource.labels.cluster_name=\"" ++ clusterName ++ "\""

/-- One entry of the `items` array built by `listPods` (lines 198-203 and
the spread on 210-213): `name`, namespace, container names (a `Set`
flattened in insertion order), `lastSeen`. -/
structure PodEntry where
  name : Json
  namespaceField : Json
  containers : List (Option Json)
  lastSeen : Option Json
deriving DecidableEq

/-- `Set.prototype.add`: append if not already present. -/
def insertUniq (l : List (Option Json)) (x : Option Json) : List (Option Json) :=
  if x ∈ l then l else l ++ [x]

/-- `entry.resource?.labels` as used throughout `listPods`. -/
def podLabels (entry : Json) : Option Json :=
  jsGetO (jsGet entry "resource") "labels"

/-- The body of the `for (const entry of data.entries)` loop of `listPods`
(lines 192-208), acting on the insertion-ordered pod map. -/
def addPodEntry (namespaceName : String) (m : List (Json × PodEntry)) (entry : Json) :
    List (Json × PodEntry) :=
  match jsGetO (podLabels entry) "pod_name" with
  | none => m
  | some podName =>
    if jsTruthy podName then
      let containerName := jsGetO (podLabels entry) "container_name"
      if (m.find? (fun p => p.1 == podName)).isSome then
        m.map (fun p =>
          if p.1 == podName then
            (p.1, { p.2 with containers := insertUniq p.2.containers containerName })
          else p)
      else
        m ++ [(podName,
          { name := podName
            namespaceField := jsOr (jsGetO (podLabels entry) "namespace_name") (.str namespaceName)
            containers := [containerName]
            lastSeen := jsGet entry "timestamp" })]
    else m

/-- The result object of `listPods`. -/
structure PodListResult where
  items : List PodEntry
  total : Nat
  note : String
deriving DecidableEq

/-- The note returned when no entries are found (line 187). -/
def listPodsNoEntriesNote : String :=
  "No recent pod activity found in logs. Pods may exist but have no recent log entries."

/-- The note returned with a non-empty pod map (line 218). -/
def listPodsNote : String :=
  "Pod list retrieved from Cloud Logging (shows pods with recent log activity)"

/-- `listPods` (lines 152-220).  Queries Cloud Logging (not the Kubernetes
API); the `labelSelector` parameter is accepted but never read. -/
def listPods (net : HttpRequest → HttpResponse) (sign : String → String → List Nat)
    (now : Nat) (config : GCPConfig) (namespaceName : String)
    (labelSelector : Option String) : List HttpRequest × Except String PodListResult :=
  match parseCredentials config.serviceAccountKey with
  | none => ([], .error jsonParseError)
  | some credentials =>
    match getAccessToken net sign now credentials with
    | (reqs, .error e) => (reqs, .error e)
    | (reqs, .ok accessToken) =>
      let projectId := resolveProjectId config credentials
      let req := entriesListRequest accessToken projectId
        (listPodsFilter namespaceName config.clusterName) 100
      let resp := net req
      if resp.ok then
        match jsGet resp.json "entries" with
        | none => (reqs ++ [req], .ok ⟨[], 0, listPodsNoEntriesNote⟩)
        | some entriesVal =>
          if jsTruthy entriesVal then
            match entriesVal with
            | .arr entries =>
              let podMap := entries.toList.foldl (addPodEntry namespaceName) []
              let items := podMap.map (fun p => p.2)
              (reqs ++ [req], .ok ⟨items, items.length, listPodsNote⟩)
            | _ => (reqs ++ [req], .error "TypeError: data.entries is not iterable")
          else (reqs ++ [req], .ok ⟨[], 0, listPodsNoEntriesNote⟩)
      else (reqs ++ [req], .error ("Failed to list pods via logging: " ++ resp.text))

/-- The Cloud Logging filter built by `getPodLogs` (lines 237-240),
including the truthiness-guarded container clause. -/
def podLogsFilter (podName namespaceName clusterName : String)
    (container : Option String) : String :=
  let base := "resource.type=\"k8s_container\" resource.labels.pod_name=\"" ++ podName ++
    "\" resource.labels.namespace_name=\"" ++ namespaceName ++
    "\" resource.labels.cluster_name=\"" ++ clusterName ++ "\""
  match container with
  | some c =>
    if c.isEmpty then base
    else base ++ " resource.labels.container_name=\"" ++ c ++ "\""
  | none => base

/-- `entry.textPayload || JSON.stringify(entry.jsonPayload || entry.protoPayload)`
(line 272), as the string it contributes to the formatted line. -/
def logMessageOf (entry : Json) : String :=
  let tp := jsGet entry "textPayload"
  if jsTruthyO tp then jsDisplayO tp
  else
    match jsOrO (jsGet entry "jsonPayload") (jsGet entry "protoPayload") with
    | some v => jsonStringify v
    | none => "undefined"

/-- One formatted log line (lines 269-274):
bracketed timestamp, bracketed severity, message. -/
def formatLogEntry (entry : Json) : String :=
  "[" ++ jsDisplay (jsOr (jsGet entry "timestamp") (.str "")) ++ "] [" ++
    jsDisplay (jsOr (jsGet entry "severity") (.str "INFO")) ++ "] " ++ logMessageOf entry

/-- The message returned when no log entries match (line 265). -/
def noLogEntriesMessage (podName : String) (container : Option String) : String :=
  "No log entries found for pod " ++ podName ++
    (match container with
     | some c => if c.isEmpty then "" else " container " ++ c
     | none => "")

/-- `getPodLogs` (lines 225-277).  Queries Cloud Logging, JSON-parses the
response and reformats the entries (oldest first, newline-joined); the raw
text body is never returned. -/
def getPodLogs (net : HttpRequest → HttpResponse) (sign : String → String → List Nat)
    (now : Nat) (config : GCPConfig) (podName namespaceName : String)
    (container : Option String) (tailLines : Nat) :
    List HttpRequest × Except String String :=
  match parseCredentials config.serviceAccountKey with
  | none => ([], .error jsonParseError)
  | some credentials =>
    match getAccessToken net sign now credentials with
    | (reqs, .error e) => (reqs, .error e)
    | (reqs, .ok accessToken) =>
      let projectId := resolveProjectId config credentials
      let req := entriesListRequest accessToken projectId
        (podLogsFilter podName namespaceName config.clusterName container) tailLines
      let resp := net req
      if resp.ok then
        match jsGet resp.json "entries" with
        | none => (reqs ++ [req], .ok (noLogEntriesMessage podName container))
        | some entriesVal =>
          if jsTruthy entriesVal then
            match entriesVal with
            | .arr entries =>
              if entries.toList.length = 0 then
                (reqs ++ [req], .ok (noLogEntriesMessage podName container))
              else
                (reqs ++ [req], .ok (String.intercalate "\n"
                  (entries.toList.reverse.map formatLogEntry)))
            | _ => (reqs ++ [req], .error "TypeError: data.entries.reverse is not a function")
          else (reqs ++ [req], .ok (noLogEntriesMessage podName container))
      else (reqs ++ [req], .error ("Failed to get pod logs: " ++ resp.text))

/-- ASCII lower-casing of one character. -/
def lowerChar (c : Char) : Char :=
  if 'A' ≤ c ∧ c ≤ 'Z' then Char.ofNat (c.toNat + 32) else c

/-- `toLowerCase` over the ASCII kinds used by `describeResource`. -/
def toLowerCase (s : String) : String := String.mk (s.data.map lowerChar)

/-- The `apiPaths` record lookup of `describeResource` (lines 294-305):
lower-cased kind to REST path. -/
def apiPathFor (namespaceName name kindLower : String) : Option String :=
  if kindLower = "pod" ∨ kindLower = "pods" then
    some ("/api/v1/namespaces/" ++ namespaceName ++ "/pods/" ++ name)
  else if kindLower = "deployment" ∨ kindLower = "deployments" then
    some ("/apis/apps/v1/namespaces/" ++ namespaceName ++ "/deployments/" ++ name)
  else if kindLower = "service" ∨ kindLower = "services" then
    some ("/api/v1/namespaces/" ++ namespaceName ++ "/services/" ++ name)
  else if kindLower = "ingress" ∨ kindLower = "ingresses" then
    some ("/apis/networking.k8s.io/v1/namespaces/" ++ namespaceName ++ "/ingresses/" ++ name)
  else none

/-- `describeResource` (lines 282-322).  Credentials, token and cluster are
resolved (two HTTP requests) before the kind is checked; an unsupported
kind then throws `Unsupported resource kind: ...`. -/
def describeResource (net : HttpRequest → HttpResponse) (sign : String → String → List Nat)
    (now : Nat) (config : GCPConfig) (kind name namespaceName : String) :
    List HttpRequest × Except String Json :=
  match parseCredentials config.serviceAccountKey with
  | none => ([], .error jsonParseError)
  | some credentials =>
    match getAccessToken net sign now credentials with
    | (reqs, .error e) => (reqs, .error e)
    | (reqs, .ok accessToken) =>
      let projectId := resolveProjectId config credentials
      match getCluster net { config with projectId := projectId } accessToken with
      | (reqs2, .error e) => (reqs ++ reqs2, .error e)
      | (reqs2, .ok cluster) =>
        match apiPathFor namespaceName name (toLowerCase kind) with
        | none => (reqs ++ reqs2, .error ("Unsupported resource kind: " ++ kind))
        | some apiPath =>
          let req : HttpRequest :=
            { method := "GET"
              url := "https://" ++ jsDisplayO cluster.endpoint ++ apiPath
              headers := [("Authorization", "Bearer " ++ jsDisplayO accessToken)]
              body := none }
          let resp := net req
          if resp.ok then (reqs ++ reqs2 ++ [req], .ok resp.json)
          else (reqs ++ reqs2 ++ [req],
            .error ("Failed to describe " ++ kind ++ "/" ++ name ++ ": " ++ resp.text))

/-- One mapped entry of `queryCloudLogs` (lines 363-369).  `message` is
`none` (`undefined`) when `textPayload` is not a string and both payloads
are absent. -/
structure CloudLogEntry where
  timestamp : Option Json
  severity : Option Json
  resource : Option Json
  message : Option String
  labels : Option Json
deriving DecidableEq

/-- The per-entry mapping of `queryCloudLogs` (lines 363-369), including
the `typeof entry.textPayload === "string"` test. -/
def cloudLogEntryOf (entry : Json) : CloudLogEntry :=
  { timestamp := jsGet entry "timestamp"
    severity := jsGet entry "severity"
    resource := jsGetO (jsGet entry "resource") "type"
    message :=
      match jsGet entry "textPayload" with
      | some (.str s) => some s
      | _ => (jsOrO (jsGet entry "jsonPayload") (jsGet entry "protoPayload")).map jsonStringify
    labels := jsGet entry "labels" }

/-- `queryCloudLogs` (lines 327-370). -/
def queryCloudLogs (net : HttpRequest → HttpResponse) (sign : String → String → List Nat)
    (now : Nat) (config : GCPConfig) (filter : String) (limit : Nat) :
    List HttpRequest × Except String (List CloudLogEntry) :=
  match parseCredentials config.serviceAccountKey with
  | none => ([], .error jsonParseError)
  | some credentials =>
    match getAccessToken net sign now credentials with
    | (reqs, .error e) => (reqs, .error e)
    | (reqs, .ok accessToken) =>
      let projectId := resolveProjectId config credentials
      let req := entriesListRequest accessToken projectId filter limit
      let resp := net req
      if resp.ok then
        match jsGet resp.json "entries" with
        | none => (reqs ++ [req], .ok [])
        | some entriesVal =>
          if jsTruthy entriesVal then
            match entriesVal with
            | .arr entries => (reqs ++ [req], .ok (entries.toList.map cloudLogEntryOf))
            | _ => (reqs ++ [req], .error "TypeError: data.entries.map is not a function")
          else (reqs ++ [req], .ok [])
      else (reqs ++ [req], .error ("Failed to query logs: " ++ resp.text))

/-! ### Concrete fixtures used by witnesses and counterexamples -/

/-- A well-formed service-account key string. -/
def demoKeyString : String :=
  "\x7b\"client_email\":\"sa@p.iam\",\"private_key\":\"PEM\",\"project_id\":\"proj-1\"\x7d"

/-- The credentials parsed from `demoKeyString`. -/
def demoCreds : ServiceAccountCredentials :=
  ⟨some (.str "sa@p.iam"), some (.str "PEM"), some (.str "proj-1")⟩

/-- A concrete tool configuration. -/
def demoConfig : GCPConfig := ⟨"proj-1", "tech-island", "europe-west2", demoKeyString⟩

/-- A concrete (abstract) signer. -/
def demoSign : String → String → List Nat := fun _ _ => [1, 2, 3]

/-- A network oracle where every call succeeds: the token endpoint returns
an access token, the cluster endpoint returns an endpoint address, and
everything else returns an empty-ish body. -/
def demoNet : HttpRequest → HttpResponse := fun req =>
  if req.url = tokenEndpoint then ⟨true, "", .obj (.cons "access_token" (.str "tok") .nil)⟩
  else if req.url = "https://container.googleapis.com/v1/projects/proj-1/locations/europe-west2/clusters/tech-island" then
    ⟨true, "", .obj (.cons "endpoint" (.str "1.2.3.4") .nil)⟩
  else ⟨true, "ok-body", .null⟩

/-- A key string that is valid JSON but carries no `client_email`. -/
def noEmailKeyString : String := "\x7b\"private_key\":\"PEM\",\"project_id\":\"p\"\x7d"

/-- `demoConfig` with the email-less key. -/
def noEmailConfig : GCPConfig := ⟨"proj-1", "tech-island", "europe-west2", noEmailKeyString⟩

/-- `demoConfig` with a key string that is not JSON at all. -/
def badKeyConfig : GCPConfig := ⟨"proj-1", "tech-island", "europe-west2", "not json"⟩

/-- A network oracle whose logging endpoint returns one text-payload log
entry while the raw text body is a distinctive multi-line non-ASCII
string. -/
def logsNet : HttpRequest → HttpResponse := fun req =>
  if req.url = tokenEndpoint then ⟨true, "", .obj (.cons "access_token" (.str "tok") .nil)⟩
  else ⟨true, "raw upstream\nbödy",
    .obj (.cons "entries" (.arr (.cons (.obj (.cons "textPayload" (.str "hello") .nil)) .nil)) .nil)⟩

/-- A network oracle that rejects every request with an OAuth error body. -/
def badTokenNet : HttpRequest → HttpResponse := fun _ =>
  ⟨false, "\x7b\"error\":\"invalid_grant\"\x7d", .null⟩

/-- A Cloud Logging entry for one pod/container observation. -/
def mkPodLogEntry (pod cont ts : String) : Json :=
  .obj (.cons "resource" (.obj (.cons "labels" (.obj (.cons "pod_name" (.str pod)
    (.cons "container_name" (.str cont) (.cons "namespace_name" (.str "apps") .nil)))) .nil))
    (.cons "timestamp" (.str ts) .nil))

/-- A network oracle whose logging endpoint reports the same pod twice with
two different containers. -/
def podsNet : HttpRequest → HttpResponse := fun req =>
  if req.url = tokenEndpoint then ⟨true, "", .obj (.cons "access_token" (.str "tok") .nil)⟩
  else ⟨true, "", .obj (.cons "entries" (.arr (.cons (mkPodLogEntry "a" "c1" "t1")
    (.cons (mkPodLogEntry "a" "c2" "t2") .nil))) .nil)⟩

/-! ### Helper lemmas -/

theorem getAccessToken_ok_eq (net : HttpRequest → HttpResponse)
    (sign : String → String → List Nat) (now : Nat)
    (credentials : ServiceAccountCredentials) (pk : String)
    (hpk : credentials.private_key = some (.str pk))
    (hok : (net (tokenRequest sign now credentials.client_email pk)).ok = true) :
    getAccessToken net sign now credentials =
      ([tokenRequest sign now credentials.client_email pk],
       .ok (jsGet (net (tokenRequest sign now credentials.client_email pk)).json "access_token")) := by
  unfold getAccessToken
  rw [hpk]
  simp [hok]

theorem getCluster_ok_eq (net : HttpRequest → HttpResponse) (config : GCPConfig)
    (accessToken : Option Json)
    (hok : (net (clusterRequest config accessToken)).ok = true) :
    getCluster net config accessToken =
      ([clusterRequest config accessToken],
       .ok ⟨jsGet (net (clusterRequest config accessToken)).json "endpoint",
            jsGetO (jsGet (net (clusterRequest config accessToken)).json "masterAuth")
              "clusterCaCertificate"⟩) := by
  unfold getCluster
  simp [hok]

/-- The pod-map invariant maintained by the `listPods` loop: keys are
distinct, container sets are duplicate-free, and each value's `name` is its
key. -/
def podMapInv (m : List (Json × PodEntry)) : Prop :=
  (m.map Prod.fst).Nodup ∧ ∀ p ∈ m, p.2.containers.Nodup ∧ p.2.name = p.1

theorem insertUniq_nodup (l : List (Option Json)) (x : Option Json) (h : l.Nodup) :
    (insertUniq l x).Nodup := by
  unfold insertUniq
  split
  · exact h
  · rename_i hx
    refine List.Nodup.append h (List.nodup_singleton x) ?_
    intro a ha hmem
    simp at hmem
    exact hx (hmem ▸ ha)

theorem podMapInv_update (m : List (Json × PodEntry)) (k : Json) (cn : Option Json)
    (h : podMapInv m) :
    podMapInv (m.map (fun p =>
      if p.1 == k then (p.1, { p.2 with containers := insertUniq p.2.containers cn })
      else p)) := by
  obtain ⟨h1, h2⟩ := h
  constructor
  · rw [List.map_map]
    have hcong : ∀ p ∈ m, (Prod.fst ∘ fun p =>
        if p.1 == k then (p.1, { p.2 with containers := insertUniq p.2.containers cn })
        else p) p = p.1 := by
      intro p _
      simp only [Function.comp_apply]
      split <;> rfl
    rw [List.map_congr_left hcong]
    exact h1
  · intro p hp
    rcases List.mem_map.1 hp with ⟨q, hq, rfl⟩
    split
    · exact ⟨insertUniq_nodup _ _ (h2 q hq).1, (h2 q hq).2⟩
    · exact h2 q hq

theorem podMapInv_append (m : List (Json × PodEntry)) (k : Json) (e : PodEntry)
    (h : podMapInv m) (hk : (m.find? (fun p => p.1 == k)).isSome = false)
    (hce : e.containers.Nodup) (hne : e.name = k) :
    podMapInv (m ++ [(k, e)]) := by
  obtain ⟨h1, h2⟩ := h
  constructor
  · rw [List.map_append]
    refine List.Nodup.append h1 (by simp) ?_
    intro a ha hmem
    simp at hmem
    rw [hmem] at ha
    rcases List.mem_map.1 ha with ⟨q, hq, hfst⟩
    have hsome : (m.find? (fun p => p.1 == k)).isSome = true := by
      rw [List.find?_isSome]
      exact ⟨q, hq, by simp [hfst]⟩
    rw [hk] at hsome
    exact Bool.false_ne_true hsome
  · intro p hp
    rcases List.mem_append.1 hp with hp | hp
    · exact h2 p hp
    · simp at hp
      rw [hp]
      exact ⟨hce, hne⟩

theorem addPodEntry_inv (ns : String) (m : List (Json × PodEntry)) (entry : Json)
    (h : podMapInv m) : podMapInv (addPodEntry ns m entry) := by
  unfold addPodEntry
  split
  · exact h
  · rename_i podName hpn
    split
    · split
      · exact podMapInv_update m podName _ h
      · rename_i hf
        exact podMapInv_append m podName _ h (Bool.eq_false_iff.mpr hf) (by simp) rfl
    · exact h

theorem foldl_addPodEntry_inv (ns : String) (l : List Json) (m : List (Json × PodEntry))
    (h : podMapInv m) : podMapInv (l.foldl (addPodEntry ns) m) := by
  induction l generalizing m with
  | nil => exact h
  | cons e tl ih => exact ih _ (addPodEntry_inv ns m e h)

/-! ### Claims -/

/-- C7: for every byte string, the base64url encoding used for JWT parts
round-trips through the reference base64url decoder, and the encoded output
never contains `+`, `/` or `=`. -/
theorem C7_base64url_roundtrip (bytes : List Nat) (hb : ∀ b ∈ bytes, b < 256) :
    base64UrlDecode (base64UrlEncode bytes) = some bytes ∧
    ∀ c ∈ (base64UrlEncode bytes).data, c ≠ '+' ∧ c ≠ '/' ∧ c ≠ '=' := by
  refine ⟨base64UrlDecode_encode bytes hb, ?_⟩
  intro c hc
  have hmem := base64UrlEncode_chars bytes c hc
  refine ⟨?_, ?_, ?_⟩ <;> exact ne_of_mem_of_not_mem hmem (by decide)

/-- Witness for C7 at a concrete byte string. -/
theorem C7_witness :
    (∀ b ∈ [0, 1, 77, 255, 254], b < 256) ∧
    (base64UrlDecode (base64UrlEncode [0, 1, 77, 255, 254]) = some [0, 1, 77, 255, 254] ∧
     ∀ c ∈ (base64UrlEncode [0, 1, 77, 255, 254]).data, c ≠ '+' ∧ c ≠ '/' ∧ c ≠ '=') :=
  ⟨by decide, C7_base64url_roundtrip [0, 1, 77, 255, 254] (by decide)⟩

/-- C9: `listPods` ignores its `labelSelector` parameter entirely — for any
two values (or omission) it issues the same requests and returns the same
result. -/
theorem C9_labelSelector_no_effect (net : HttpRequest → HttpResponse)
    (sign : String → String → List Nat) (now : Nat) (config : GCPConfig)
    (namespaceName : String) (ls₁ ls₂ : Option String) :
    listPods net sign now config namespaceName ls₁ =
      listPods net sign now config namespaceName ls₂ := rfl

/-- C10: every successful `listPods` result has pairwise-distinct pod
names, duplicate-free container lists, and `total` equal to the number of
items. -/
theorem C10_listPods_result_invariants (net : HttpRequest → HttpResponse)
    (sign : String → String → List Nat) (now : Nat) (config : GCPConfig)
    (namespaceName : String) (labelSelector : Option String) (r : PodListResult)
    (h : (listPods net sign now config namespaceName labelSelector).2 = .ok r) :
    (r.items.map (fun it => it.name)).Nodup ∧
    (∀ it ∈ r.items, it.containers.Nodup) ∧
    r.total = r.items.length := by
  unfold listPods at h
  split at h
  · simp at h
  · split at h
    · simp at h
    · rename_i credentials hcred reqs accessToken hga
      dsimp only at h
      split at h
      · split at h
        · simp only at h
          injection h with h
          subst h
          simp
        · split at h
          · split at h
            · rename_i entries hget htruthy
              simp only at h
              injection h with h
              subst h
              obtain ⟨h1, h2⟩ :=
                foldl_addPodEntry_inv namespaceName entries.toList []
                  ⟨by simp, by simp⟩
              refine ⟨?_, ?_, rfl⟩
              · rw [List.map_map]
                have hcong : ∀ p ∈ entries.toList.foldl (addPodEntry namespaceName) [],
                    ((fun it => it.name) ∘ Prod.snd) p = Prod.fst p := by
                  intro p hp
                  exact (h2 p hp).2
                rw [List.map_congr_left hcong]
                exact h1
              · intro it hit
                rcases List.mem_map.1 hit with ⟨p, hp, rfl⟩
                exact (h2 p hp).1
            · simp at h
          · simp only at h
            injection h with h
            subst h
            simp
      · simp at h

/-- Witness for C10: a run over a logging response naming the same pod
twice with two containers. -/
theorem C10_witness :
    (listPods podsNet demoSign 1700000000 demoConfig "apps" none).2 =
      .ok ⟨[⟨.str "a", .str "apps", [some (.str "c1"), some (.str "c2")],
            some (.str "t1")⟩], 1, listPodsNote⟩ ∧
    (([(⟨.str "a", .str "apps", [some (.str "c1"), some (.str "c2")],
        some (.str "t1")⟩ : PodEntry)].map (fun it => it.name)).Nodup ∧
     (∀ it ∈ [(⟨.str "a", .str "apps", [some (.str "c1"), some (.str "c2")],
        some (.str "t1")⟩ : PodEntry)], it.containers.Nodup) ∧
     (1 : Nat) = [(⟨.str "a", .str "apps", [some (.str "c1"), some (.str "c2")],
        some (.str "t1")⟩ : PodEntry)].length) :=
  ⟨by decide,
   C10_listPods_result_invariants podsNet demoSign 1700000000 demoConfig "apps" none
     ⟨[⟨.str "a", .str "apps", [some (.str "c1"), some (.str "c2")], some (.str "t1")⟩],
      1, listPodsNote⟩ (by decide)⟩

theorem base64UrlEncode_no_dot (bytes : List Nat) : '.' ∉ (base64UrlEncode bytes).data := by
  intro hc
  have hmem := base64UrlEncode_chars bytes _ hc
  revert hmem
  decide

/-- C4: the signed assertion is the compact three-part JWT
`base64url(header).base64url(claims).base64url(signature)` with header
exactly alg RS256 / typ JWT and claims `iss` = client email, `scope` = the
requested (cloud-platform) scope, `aud` = the token endpoint, `iat` = the
current epoch seconds and `exp - iat = 3600`. -/
theorem C4_assertion_structure (sign : String → String → List Nat) (now : Nat)
    (email pk : String)
    (hemail : ∀ b ∈ strBytes (jsonStringify (jwtClaims (some (.str email)) now)), b < 256)
    (hsig : ∀ b ∈ sign (base64UrlEncode (strBytes (jsonStringify jwtHeaderJson)) ++ "." ++
        base64UrlEncode (strBytes (jsonStringify (jwtClaims (some (.str email)) now)))) pk,
      b < 256) :
    ∃ eh ec es : String,
      mkAssertion sign now (some (.str email)) pk = eh ++ "." ++ ec ++ "." ++ es ∧
      '.' ∉ eh.data ∧ '.' ∉ ec.data ∧ '.' ∉ es.data ∧
      base64UrlDecode eh = some (strBytes (jsonStringify jwtHeaderJson)) ∧
      jsonStringify jwtHeaderJson = "\x7b\"alg\":\"RS256\",\"typ\":\"JWT\"\x7d" ∧
      base64UrlDecode ec = some (strBytes (jsonStringify (jwtClaims (some (.str email)) now))) ∧
      jsGet (jwtClaims (some (.str email)) now) "iss" = some (.str email) ∧
      jsGet (jwtClaims (some (.str email)) now) "scope" = some (.str cloudPlatformScope) ∧
      jsGet (jwtClaims (some (.str email)) now) "aud" = some (.str tokenEndpoint) ∧
      jsGet (jwtClaims (some (.str email)) now) "iat" = some (.num now) ∧
      jsGet (jwtClaims (some (.str email)) now) "exp" = some (.num (now + 3600)) ∧
      base64UrlDecode es = some (sign (eh ++ "." ++ ec) pk) := by
  refine ⟨base64UrlEncode (strBytes (jsonStringify jwtHeaderJson)),
          base64UrlEncode (strBytes (jsonStringify (jwtClaims (some (.str email)) now))),
          base64UrlEncode (sign (base64UrlEncode (strBytes (jsonStringify jwtHeaderJson)) ++ "." ++
            base64UrlEncode (strBytes (jsonStringify (jwtClaims (some (.str email)) now)))) pk),
          rfl,
          base64UrlEncode_no_dot _, base64UrlEncode_no_dot _, base64UrlEncode_no_dot _,
          base64UrlDecode_encode _ (by decide), rfl,
          base64UrlDecode_encode _ hemail,
          rfl, rfl, rfl, rfl, rfl,
          base64UrlDecode_encode _ hsig⟩

/-- Witness for C4 at concrete credentials, signer and clock. -/
theorem C4_witness :
    ∃ eh ec es : String,
      mkAssertion demoSign 1700000000 (some (.str "a@b.iam.gserviceaccount.com")) "PEM" =
        eh ++ "." ++ ec ++ "." ++ es ∧
      '.' ∉ eh.data ∧ '.' ∉ ec.data ∧ '.' ∉ es.data ∧
      base64UrlDecode eh = some (strBytes (jsonStringify jwtHeaderJson)) ∧
      jsonStringify jwtHeaderJson = "\x7b\"alg\":\"RS256\",\"typ\":\"JWT\"\x7d" ∧
      base64UrlDecode ec = some (strBytes (jsonStringify
        (jwtClaims (some (.str "a@b.iam.gserviceaccount.com")) 1700000000))) ∧
      jsGet (jwtClaims (some (.str "a@b.iam.gserviceaccount.com")) 1700000000) "iss" =
        some (.str "a@b.iam.gserviceaccount.com") ∧
      jsGet (jwtClaims (some (.str "a@b.iam.gserviceaccount.com")) 1700000000) "scope" =
        some (.str cloudPlatformScope) ∧
      jsGet (jwtClaims (some (.str "a@b.iam.gserviceaccount.com")) 1700000000) "aud" =
        some (.str tokenEndpoint) ∧
      jsGet (jwtClaims (some (.str "a@b.iam.gserviceaccount.com")) 1700000000) "iat" =
        some (.num 1700000000) ∧
      jsGet (jwtClaims (some (.str "a@b.iam.gserviceaccount.com")) 1700000000) "exp" =
        some (.num (1700000000 + 3600)) ∧
      base64UrlDecode es =
        some (demoSign (eh ++ "." ++ ec) "PEM") :=
  C4_assertion_structure demoSign 1700000000 "a@b.iam.gserviceaccount.com" "PEM"
    (by decide) (by decide)

/-- C6: token exchange POSTs a form-encoded body with the jwt-bearer grant
type and the signed assertion to the token endpoint; on 2xx it returns the
`access_token` field of the JSON body, and on non-2xx it fails with the
token-exchange error carrying the response body text. -/
theorem C6_token_exchange (net : HttpRequest → HttpResponse)
    (sign : String → String → List Nat) (now : Nat)
    (credentials : ServiceAccountCredentials) (pk : String)
    (hpk : credentials.private_key = some (.str pk)) :
    (getAccessToken net sign now credentials).1 =
      [tokenRequest sign now credentials.client_email pk] ∧
    (tokenRequest sign now credentials.client_email pk).method = "POST" ∧
    (tokenRequest sign now credentials.client_email pk).url = tokenEndpoint ∧
    (tokenRequest sign now credentials.client_email pk).body =
      some (formUrlEncode
        [("grant_type", "urn:ietf:params:oauth:grant-type:jwt-bearer"),
         ("assertion", mkAssertion sign now credentials.client_email pk)]) ∧
    ((net (tokenRequest sign now credentials.client_email pk)).ok = true →
      (getAccessToken net sign now credentials).2 =
        .ok (jsGet (net (tokenRequest sign now credentials.client_email pk)).json
          "access_token")) ∧
    ((net (tokenRequest sign now credentials.client_email pk)).ok = false →
      (getAccessToken net sign now credentials).2 =
        .error ("Failed to get access token: " ++
          (net (tokenRequest sign now credentials.client_email pk)).text)) := by
  refine ⟨?_, rfl, rfl, rfl, ?_, ?_⟩
  · unfold getAccessToken
    rw [hpk]
    dsimp only
    split <;> rfl
  · intro hok
    rw [getAccessToken_ok_eq net sign now credentials pk hpk hok]
  · intro hnok
    unfold getAccessToken
    rw [hpk]
    simp [hnok]

/-- Witness for C6: an HTTP 4xx with body containing `invalid_grant` makes
the operation fail with that body in the message. -/
theorem C6_witness :
    ((getAccessToken badTokenNet demoSign 1700000000 demoCreds).1 =
      [tokenRequest demoSign 1700000000 demoCreds.client_email "PEM"] ∧
     (tokenRequest demoSign 1700000000 demoCreds.client_email "PEM").method = "POST" ∧
     (tokenRequest demoSign 1700000000 demoCreds.client_email "PEM").url = tokenEndpoint ∧
     (tokenRequest demoSign 1700000000 demoCreds.client_email "PEM").body =
       some (formUrlEncode
         [("grant_type", "urn:ietf:params:oauth:grant-type:jwt-bearer"),
          ("assertion", mkAssertion demoSign 1700000000 demoCreds.client_email "PEM")]) ∧
     ((badTokenNet (tokenRequest demoSign 1700000000 demoCreds.client_email "PEM")).ok = true →
       (getAccessToken badTokenNet demoSign 1700000000 demoCreds).2 =
         .ok (jsGet (badTokenNet
           (tokenRequest demoSign 1700000000 demoCreds.client_email "PEM")).json
           "access_token")) ∧
     ((badTokenNet (tokenRequest demoSign 1700000000 demoCreds.client_email "PEM")).ok = false →
       (getAccessToken badTokenNet demoSign 1700000000 demoCreds).2 =
         .error ("Failed to get access token: " ++
           (badTokenNet
             (tokenRequest demoSign 1700000000 demoCreds.client_email "PEM")).text))) ∧
    (∃ p q : String,
      (getAccessToken badTokenNet demoSign 1700000000 demoCreds).2 =
        .error (p ++ "invalid_grant" ++ q)) :=
  ⟨C6_token_exchange badTokenNet demoSign 1700000000 demoCreds "PEM" rfl,
   ⟨"Failed to get access token: \x7b\"error\":\"", "\"\x7d", by decide⟩⟩

/-- C5 (amended): when the service-account key string is not valid JSON,
every tool operation fails before any network call with the JSON parse
error; field presence, however, is never validated (see the
counterexample). -/
theorem C5_invalid_json_fails_fast (net : HttpRequest → HttpResponse)
    (sign : String → String → List Nat) (now : Nat) (config : GCPConfig)
    (namespaceName podName kind name filter : String)
    (labelSelector container : Option String) (tailLines limit : Nat)
    (hbad : jsonParse config.serviceAccountKey = none) :
    listPods net sign now config namespaceName labelSelector = ([], .error jsonParseError) ∧
    getPodLogs net sign now config podName namespaceName container tailLines =
      ([], .error jsonParseError) ∧
    describeResource net sign now config kind name namespaceName =
      ([], .error jsonParseError) ∧
    queryCloudLogs net sign now config filter limit = ([], .error jsonParseError) := by
  have hpc : parseCredentials config.serviceAccountKey = none := by
    unfold parseCredentials
    rw [hbad]
    rfl
  refine ⟨?_, ?_, ?_, ?_⟩
  · unfold listPods
    rw [hpc]
  · unfold getPodLogs
    rw [hpc]
  · unfold describeResource
    rw [hpc]
  · unfold queryCloudLogs
    rw [hpc]

/-- Witness for C5 at a key string that is not JSON. -/
theorem C5_witness :
    jsonParse badKeyConfig.serviceAccountKey = none ∧
    (listPods demoNet demoSign 1700000000 badKeyConfig "apps" none =
       ([], .error jsonParseError) ∧
     getPodLogs demoNet demoSign 1700000000 badKeyConfig "pod-1" "apps" none 100 =
       ([], .error jsonParseError) ∧
     describeResource demoNet demoSign 1700000000 badKeyConfig "pod" "p" "apps" =
       ([], .error jsonParseError) ∧
     queryCloudLogs demoNet demoSign 1700000000 badKeyConfig "f" 50 =
       ([], .error jsonParseError)) :=
  ⟨by decide,
   C5_invalid_json_fails_fast demoNet demoSign 1700000000 badKeyConfig
     "apps" "pod-1" "pod" "p" "f" none none 100 50 (by decide)⟩

/-- Counterexample to C5 as stated: a key that is valid JSON but has no
`client_email` does not produce a parse failure — the operation proceeds
and issues two network requests (token exchange and the logging query). -/
theorem C5_counterexample :
    (listPods demoNet demoSign 1700000000 noEmailConfig "apps" none).1.length = 2 ∧
    (listPods demoNet demoSign 1700000000 noEmailConfig "apps" none).2 =
      .ok ⟨[], 0, listPodsNoEntriesNote⟩ := by
  constructor
  · rfl
  · rfl

/-- C1 (amended): `describeResource` maps the lower-cased kind over the
fixed eight-entry table (so the service scenario requests
`/api/v1/namespaces/apps/services/my-svc`), and for any kind outside the
table it fails with the unsupported-kind error only after the token
exchange and the cluster lookup — two HTTP requests, not zero. -/
theorem C1_describe_kind_dispatch (net : HttpRequest → HttpResponse)
    (sign : String → String → List Nat) (now : Nat) (config : GCPConfig)
    (kind name namespaceName : String)
    (credentials : ServiceAccountCredentials) (pk : String)
    (hparse : parseCredentials config.serviceAccountKey = some credentials)
    (hpk : credentials.private_key = some (.str pk))
    (hTok : (net (tokenRequest sign now credentials.client_email pk)).ok = true)
    (hClu : (net (clusterRequest { config with projectId := resolveProjectId config credentials }
        (jsGet (net (tokenRequest sign now credentials.client_email pk)).json
          "access_token"))).ok = true) :
    (∀ k : String, (apiPathFor namespaceName name k).isSome = true ↔
       k ∈ ["pod", "pods", "deployment", "deployments", "service", "services",
            "ingress", "ingresses"]) ∧
    apiPathFor "apps" "my-svc" (toLowerCase "service") =
      some "/api/v1/namespaces/apps/services/my-svc" ∧
    (apiPathFor namespaceName name (toLowerCase kind) = none →
      describeResource net sign now config kind name namespaceName =
        ([tokenRequest sign now credentials.client_email pk,
          clusterRequest { config with projectId := resolveProjectId config credentials }
            (jsGet (net (tokenRequest sign now credentials.client_email pk)).json
              "access_token")],
         .error ("Unsupported resource kind: " ++ kind))) ∧
    (∀ path, apiPathFor namespaceName name (toLowerCase kind) = some path →
      (describeResource net sign now config kind name namespaceName).1 =
        [tokenRequest sign now credentials.client_email pk,
         clusterRequest { config with projectId := resolveProjectId config credentials }
           (jsGet (net (tokenRequest sign now credentials.client_email pk)).json
             "access_token"),
         { method := "GET"
           url := "https://" ++ jsDisplayO (jsGet (net (clusterRequest
               { config with projectId := resolveProjectId config credentials }
               (jsGet (net (tokenRequest sign now credentials.client_email pk)).json
                 "access_token"))).json "endpoint") ++ path
           headers := [("Authorization", "Bearer " ++ jsDisplayO
             (jsGet (net (tokenRequest sign now credentials.client_email pk)).json
               "access_token"))]
           body := none }]) := by
  refine ⟨?_, by decide, ?_, ?_⟩
  · intro k
    constructor
    · intro hk
      unfold apiPathFor at hk
      split_ifs at hk with h1 h2 h3 h4
      · rcases h1 with h | h <;> simp [h]
      · rcases h2 with h | h <;> simp [h]
      · rcases h3 with h | h <;> simp [h]
      · rcases h4 with h | h <;> simp [h]
      · simp at hk
    · intro hk
      simp only [List.mem_cons, List.not_mem_nil, or_false] at hk
      rcases hk with h | h | h | h | h | h | h | h <;> subst h <;> rfl
  · intro hnone
    unfold describeResource
    rw [hparse]
    dsimp only
    rw [getAccessToken_ok_eq net sign now credentials pk hpk hTok]
    dsimp only
    rw [getCluster_ok_eq _ _ _ hClu]
    dsimp only
    rw [hnone]
    rfl
  · intro path hpath
    unfold describeResource
    rw [hparse]
    dsimp only
    rw [getAccessToken_ok_eq net sign now credentials pk hpk hTok]
    dsimp only
    rw [getCluster_ok_eq _ _ _ hClu]
    dsimp only
    rw [hpath]
    dsimp only
    split <;> rfl

/-- Witness for C1: the concrete widget/service runs. -/
theorem C1_witness :
    (describeResource demoNet demoSign 1700000000 demoConfig "widget" "my-svc" "apps" =
      ([tokenRequest demoSign 1700000000 demoCreds.client_email "PEM",
        clusterRequest { demoConfig with projectId := resolveProjectId demoConfig demoCreds }
          (jsGet (demoNet (tokenRequest demoSign 1700000000 demoCreds.client_email "PEM")).json
            "access_token")],
       .error "Unsupported resource kind: widget")) ∧
    apiPathFor "apps" "my-svc" (toLowerCase "service") =
      some "/api/v1/namespaces/apps/services/my-svc" :=
  ⟨(C1_describe_kind_dispatch demoNet demoSign 1700000000 demoConfig "widget" "my-svc" "apps"
      demoCreds "PEM" (by decide) rfl rfl rfl).2.2.1 (by decide),
   (C1_describe_kind_dispatch demoNet demoSign 1700000000 demoConfig "widget" "my-svc" "apps"
      demoCreds "PEM" (by decide) rfl rfl rfl).2.1⟩

/-- Counterexample to C1 as stated: with an unsupported kind the failure
comes only after two HTTP requests have been issued, not before any
network call. -/
theorem C1_counterexample :
    (describeResource demoNet demoSign 1700000000 demoConfig "widget" "w" "apps").1.length = 2 ∧
    (describeResource demoNet demoSign 1700000000 demoConfig "widget" "w" "apps").2 =
      .error "Unsupported resource kind: widget" := ⟨rfl, rfl⟩

/-- C2 (amended): `listPods` obtains a token and then POSTs (not GETs) a
Cloud Logging `entries:list` query with bearer auth — it never calls the
Kubernetes pods endpoint; on a 2xx response without an `entries` field it
returns zero items and zero total (plus an explanatory note). -/
theorem C2_listPods_via_cloud_logging (net : HttpRequest → HttpResponse)
    (sign : String → String → List Nat) (now : Nat) (config : GCPConfig)
    (namespaceName : String) (labelSelector : Option String)
    (credentials : ServiceAccountCredentials) (pk : String)
    (hparse : parseCredentials config.serviceAccountKey = some credentials)
    (hpk : credentials.private_key = some (.str pk))
    (hTok : (net (tokenRequest sign now credentials.client_email pk)).ok = true) :
    (listPods net sign now config namespaceName labelSelector).1 =
      [tokenRequest sign now credentials.client_email pk,
       entriesListRequest
         (jsGet (net (tokenRequest sign now credentials.client_email pk)).json "access_token")
         (resolveProjectId config credentials)
         (listPodsFilter namespaceName config.clusterName) 100] ∧
    (entriesListRequest
       (jsGet (net (tokenRequest sign now credentials.client_email pk)).json "access_token")
       (resolveProjectId config credentials)
       (listPodsFilter namespaceName config.clusterName) 100).method = "POST" ∧
    (entriesListRequest
       (jsGet (net (tokenRequest sign now credentials.client_email pk)).json "access_token")
       (resolveProjectId config credentials)
       (listPodsFilter namespaceName config.clusterName) 100).url = loggingEndpoint ∧
    (entriesListRequest
       (jsGet (net (tokenRequest sign now credentials.client_email pk)).json "access_token")
       (resolveProjectId config credentials)
       (listPodsFilter namespaceName config.clusterName) 100).headers =
      [("Authorization", "Bearer " ++ jsDisplayO
          (jsGet (net (tokenRequest sign now credentials.client_email pk)).json "access_token")),
       ("Content-Type", "application/json")] ∧
    ((net (entriesListRequest
        (jsGet (net (tokenRequest sign now credentials.client_email pk)).json "access_token")
        (resolveProjectId config credentials)
        (listPodsFilter namespaceName config.clusterName) 100)).ok = true →
      jsGet (net (entriesListRequest
        (jsGet (net (tokenRequest sign now credentials.client_email pk)).json "access_token")
        (resolveProjectId config credentials)
        (listPodsFilter namespaceName config.clusterName) 100)).json "entries" = none →
      (listPods net sign now config namespaceName labelSelector).2 =
        .ok ⟨[], 0, listPodsNoEntriesNote⟩) := by
  refine ⟨?_, rfl, rfl, rfl, ?_⟩
  · unfold listPods
    rw [hparse]
    dsimp only
    rw [getAccessToken_ok_eq net sign now credentials pk hpk hTok]
    dsimp only
    repeat' split
    all_goals rfl
  · intro hok hnone
    unfold listPods
    rw [hparse]
    dsimp only
    rw [getAccessToken_ok_eq net sign now credentials pk hpk hTok]
    dsimp only
    simp only [hok, if_true]
    rw [hnone]

/-- Witness for C2 at the concrete all-ok oracle. -/
theorem C2_witness :
    (listPods demoNet demoSign 1700000000 demoConfig "apps" none).1 =
      [tokenRequest demoSign 1700000000 demoCreds.client_email "PEM",
       entriesListRequest
         (jsGet (demoNet (tokenRequest demoSign 1700000000 demoCreds.client_email "PEM")).json
           "access_token")
         (resolveProjectId demoConfig demoCreds)
         (listPodsFilter "apps" demoConfig.clusterName) 100] ∧
    (listPods demoNet demoSign 1700000000 demoConfig "apps" none).2 =
      .ok ⟨[], 0, listPodsNoEntriesNote⟩ :=
  ⟨(C2_listPods_via_cloud_logging demoNet demoSign 1700000000 demoConfig "apps" none
      demoCreds "PEM" (by decide) rfl rfl).1,
   (C2_listPods_via_cloud_logging demoNet demoSign 1700000000 demoConfig "apps" none
      demoCreds "PEM" (by decide) rfl rfl).2.2.2.2 rfl rfl⟩

/-- Counterexample to C2 as stated: on a concrete run every request issued
by `listPods` is a POST (to the token and Cloud Logging endpoints) — no
`GET {endpoint}/api/v1/namespaces/{namespace}/pods` request exists. -/
theorem C2_counterexample :
    ((listPods demoNet demoSign 1700000000 demoConfig "apps" none).1.map
       (fun r => r.method)) = ["POST", "POST"] ∧
    ((listPods demoNet demoSign 1700000000 demoConfig "apps" none).1.map
       (fun r => r.url)) = [tokenEndpoint, loggingEndpoint] ∧
    ∀ r ∈ (listPods demoNet demoSign 1700000000 demoConfig "apps" none).1,
      r.method ≠ "GET" := ⟨rfl, rfl, by decide⟩

/-- C3 (amended): `getPodLogs` does not return the upstream text body — it
JSON-parses the Cloud Logging response and returns the entries reformatted
as bracketed timestamp/severity lines, oldest first, newline-joined; on
non-2xx it fails with an error whose message carries the upstream body. -/
theorem C3_getPodLogs_formats (net : HttpRequest → HttpResponse)
    (sign : String → String → List Nat) (now : Nat) (config : GCPConfig)
    (podName namespaceName : String) (container : Option String) (tailLines : Nat)
    (credentials : ServiceAccountCredentials) (pk : String)
    (hparse : parseCredentials config.serviceAccountKey = some credentials)
    (hpk : credentials.private_key = some (.str pk))
    (hTok : (net (tokenRequest sign now credentials.client_email pk)).ok = true) :
    ((net (entriesListRequest
        (jsGet (net (tokenRequest sign now credentials.client_email pk)).json "access_token")
        (resolveProjectId config credentials)
        (podLogsFilter podName namespaceName config.clusterName container) tailLines)).ok = true →
      ∀ l : JsonList,
        jsGet (net (entriesListRequest
          (jsGet (net (tokenRequest sign now credentials.client_email pk)).json "access_token")
          (resolveProjectId config credentials)
          (podLogsFilter podName namespaceName config.clusterName container) tailLines)).json
          "entries" = some (.arr l) →
        l.toList.length ≠ 0 →
        (getPodLogs net sign now config podName namespaceName container tailLines).2 =
          .ok (String.intercalate "\n" (l.toList.reverse.map formatLogEntry))) ∧
    ((net (entriesListRequest
        (jsGet (net (tokenRequest sign now credentials.client_email pk)).json "access_token")
        (resolveProjectId config credentials)
        (podLogsFilter podName namespaceName config.clusterName container) tailLines)).ok = false →
      (getPodLogs net sign now config podName namespaceName container tailLines).2 =
        .error ("Failed to get pod logs: " ++
          (net (entriesListRequest
            (jsGet (net (tokenRequest sign now credentials.client_email pk)).json "access_token")
            (resolveProjectId config credentials)
            (podLogsFilter podName namespaceName config.clusterName container) tailLines)).text)) := by
  constructor
  · intro hok l hent hlen
    unfold getPodLogs
    rw [hparse]
    dsimp only
    rw [getAccessToken_ok_eq net sign now credentials pk hpk hTok]
    dsimp only
    simp only [hok, if_true]
    rw [hent]
    dsimp only [jsTruthy]
    rw [if_pos rfl, if_neg hlen]
  · intro hnok
    unfold getPodLogs
    rw [hparse]
    dsimp only
    rw [getAccessToken_ok_eq net sign now credentials pk hpk hTok]
    dsimp only
    simp [hnok]

/-- Witness for C3: the formatted single-entry run. -/
theorem C3_witness :
    (getPodLogs logsNet demoSign 1700000000 demoConfig "pod-1" "apps" none 100).2 =
      .ok "[] [INFO] hello" :=
  (C3_getPodLogs_formats logsNet demoSign 1700000000 demoConfig "pod-1" "apps" none 100
      demoCreds "PEM" (by decide) rfl rfl).1 rfl
    (.cons (.obj (.cons "textPayload" (.str "hello") .nil)) .nil) rfl (by decide)

/-- Counterexample to C3 as stated: the returned string is the formatted
line, while every upstream text body in the run (which contains a newline
and a non-ASCII character) is different from it. -/
theorem C3_counterexample :
    (getPodLogs logsNet demoSign 1700000000 demoConfig "pod-1" "apps" none 100).2 =
      .ok "[] [INFO] hello" ∧
    (∀ req : HttpRequest,
      (logsNet req).text = "" ∨ (logsNet req).text = "raw upstream\nbödy") ∧
    "[] [INFO] hello" ≠ "" ∧
    "[] [INFO] hello" ≠ "raw upstream\nbödy" := by
  refine ⟨by decide, ?_, by decide, by decide⟩
  intro req
  unfold logsNet
  split
  · exact Or.inl rfl
  · exact Or.inr rfl

/-- C8: `queryCloudLogs` returns the empty array (not an error) when the
2xx response has no `entries` field, and otherwise maps each entry to the
timestamp/severity/resource/message/labels shape, where `message` is
`textPayload` exactly when that is a string and otherwise the stringified
`jsonPayload`/`protoPayload`. -/
theorem C8_queryCloudLogs_mapping (net : HttpRequest → HttpResponse)
    (sign : String → String → List Nat) (now : Nat) (config : GCPConfig)
    (filter : String) (limit : Nat)
    (credentials : ServiceAccountCredentials) (pk : String)
    (hparse : parseCredentials config.serviceAccountKey = some credentials)
    (hpk : credentials.private_key = some (.str pk))
    (hTok : (net (tokenRequest sign now credentials.client_email pk)).ok = true)
    (hok : (net (entriesListRequest
        (jsGet (net (tokenRequest sign now credentials.client_email pk)).json "access_token")
        (resolveProjectId config credentials) filter limit)).ok = true) :
    (jsGet (net (entriesListRequest
        (jsGet (net (tokenRequest sign now credentials.client_email pk)).json "access_token")
        (resolveProjectId config credentials) filter limit)).json "entries" = none →
      (queryCloudLogs net sign now config filter limit).2 = .ok []) ∧
    (∀ l : JsonList,
      jsGet (net (entriesListRequest
        (jsGet (net (tokenRequest sign now credentials.client_email pk)).json "access_token")
        (resolveProjectId config credentials) filter limit)).json "entries" = some (.arr l) →
      (queryCloudLogs net sign now config filter limit).2 =
        .ok (l.toList.map cloudLogEntryOf)) ∧
    (∀ entry : Json, ∀ s : String, jsGet entry "textPayload" = some (.str s) →
      (cloudLogEntryOf entry).message = some s) ∧
    (∀ entry : Json, (∀ s : String, jsGet entry "textPayload" ≠ some (.str s)) →
      (cloudLogEntryOf entry).message =
        (jsOrO (jsGet entry "jsonPayload") (jsGet entry "protoPayload")).map jsonStringify) := by
  refine ⟨?_, ?_, ?_, ?_⟩
  · intro hnone
    unfold queryCloudLogs
    rw [hparse]
    dsimp only
    rw [getAccessToken_ok_eq net sign now credentials pk hpk hTok]
    dsimp only
    simp only [hok, if_true]
    rw [hnone]
  · intro l hent
    unfold queryCloudLogs
    rw [hparse]
    dsimp only
    rw [getAccessToken_ok_eq net sign now credentials pk hpk hTok]
    dsimp only
    simp only [hok, if_true]
    rw [hent]
    dsimp only [jsTruthy]
    rw [if_pos rfl]
  · intro entry s hs
    unfold cloudLogEntryOf
    rw [hs]
  · intro entry hns
    unfold cloudLogEntryOf
    dsimp only
    cases htp : jsGet entry "textPayload" with
    | none => rfl
    | some v =>
      cases v with
      | str s => exact absurd htp (hns s)
      | null => rfl
      | bool b => rfl
      | num n => rfl
      | arr xs => rfl
      | obj xs => rfl

/-- Witness for C8: the no-entries run returns `[]`; a one-entry run maps
to the compact entry shape. -/
theorem C8_witness :
    (queryCloudLogs demoNet demoSign 1700000000 demoConfig "f" 50).2 = .ok [] ∧
    (queryCloudLogs logsNet demoSign 1700000000 demoConfig "f" 50).2 =
      .ok [⟨none, none, none, some "hello", none⟩] :=
  ⟨(C8_queryCloudLogs_mapping demoNet demoSign 1700000000 demoConfig "f" 50
      demoCreds "PEM" (by decide) rfl rfl rfl).1 rfl,
   (C8_queryCloudLogs_mapping logsNet demoSign 1700000000 demoConfig "f" 50
      demoCreds "PEM" (by decide) rfl rfl rfl).2.1
     (.cons (.obj (.cons "textPayload" (.str "hello") .nil)) .nil) rfl⟩
